import Mathlib

/-!
Shallow embedding of the two Raspberry Pi barcode-scanner scripts
(`raspi-barcode-scanner-display.py`, the display variant, and
`raspi-barcode-scanner.py`, the console variant) and proofs about the
behaviour their specification claims.

The embedding models:
- the configuration constants the claims depend on,
- `cache_scan` / `send_cached_scans` (offline buffer) over an abstract
  directory listing and an abstract delivery oracle,
- `process_barcode` of both variants as a pure function from the barcode,
  the outcome of the HTTP post and the cache-store outcome to the ordered
  list of observable effects it performs,
- the stdin framing loop of `main` as a step function on the
  (buffer, last-input-time) state,
- the body of `display_thread` as a step function on the
  (is_showing_clock, last_clock_update, current_display_end_time) state.
-/

namespace BarcodeScanner

/-! ## Configuration constants (from the configuration sections) -/

def DEVICE_ID : String := "raspberrypi01"

/-- `INPUT_TIMEOUT = 0.5` seconds, shared by both variants. -/
def INPUT_TIMEOUT : ℚ := 1 / 2

/-- `SCAN_DISPLAY_TIME = 6` in the display variant. -/
def SCAN_DISPLAY_TIME : Nat := 6

/-- `SCAN_DISPLAY_TIME = 3` in the console variant. -/
def SCAN_DISPLAY_TIME_CONSOLE : Nat := 3

/-- `CLOCK_UPDATE_INTERVAL = 1` second (display variant). -/
def CLOCK_UPDATE_INTERVAL : ℚ := 1

/-! ## HTTP responses

`response.json()` is modelled as an already-parsed record of the fields the
scripts read with `result.get(...)`; a missing field is `none`. -/

structure ScanBody where
  success : Option Bool
  action : Option String
  name : Option String
  code : Option String
  message : Option String
deriving DecidableEq, Repr

/-- Python truthiness of `result.get('success')`: missing or `False` is
falsy, `True` is truthy. -/
def truthy (o : Option Bool) : Bool := o.getD false

/-- An HTTP response as the scripts consume it: the status code, the parsed
JSON body, and the raw text (used by the console variant for non-200). -/
structure Response where
  status : Nat
  body : ScanBody
  text : String
deriving DecidableEq, Repr

/-- Outcome of one `requests.post` exchange inside `process_barcode`:
either a response came back, or the post raised
`requests.RequestException` (transport failure), or some other exception
was raised (caught by the final `except Exception` handler). -/
inductive HttpOutcome where
  | response (r : Response)
  | requestException
  | otherError (msg : String)
deriving DecidableEq, Repr

/-! ## Display variant: `process_barcode` effects -/

/-- A display request as enqueued on `display_queue`
(the dict literals in the display variant's `process_barcode`/`main`). -/
inductive DisplayRequest where
  | clock (duration : Nat)
  | success (action name date time : String) (duration : Nat)
  | error (message code : String) (duration : Nat)
deriving DecidableEq, Repr

/-- Observable effects of the display variant's `process_barcode`, in
program order: the HTTP post, GPIO/buzzer cues, `display_queue.put`, and
the invocation of `cache_scan` (which attempts to create one cache file
for the barcode; whether it succeeds is the `cacheOk` oracle). -/
inductive Effect where
  | httpPost (idNumber deviceId : String)
  | cueSuccess
  | cueError
  | enqueueDisplay (r : DisplayRequest)
  | cacheWrite (idNumber : String)
deriving DecidableEq, Repr

/-- The display variant's `process_barcode`, as the ordered list of effects
it performs given the barcode, the outcome of the post, whether
`cache_scan` succeeds (`cacheOk`), and the formatted current date/time. -/
def processBarcode (barcode : String) (outcome : HttpOutcome) (cacheOk : Bool)
    (currentDate currentTime : String) : List Effect :=
  if barcode = "" then []
  else
    Effect.httpPost barcode DEVICE_ID ::
    match outcome with
    | HttpOutcome.response r =>
        if r.status = 200 then
          Effect.cueSuccess ::
          (if truthy r.body.success then
            [Effect.enqueueDisplay (DisplayRequest.success
              (r.body.action.getD "clock-in") (r.body.name.getD "")
              currentDate currentTime SCAN_DISPLAY_TIME)]
          else
            [Effect.enqueueDisplay (DisplayRequest.error
              (r.body.message.getD "未知錯誤")
              (r.body.code.getD "UNKNOWN_ERROR") SCAN_DISPLAY_TIME)])
        else
          Effect.cueError ::
          [Effect.enqueueDisplay (DisplayRequest.error
            ("伺服器錯誤 (" ++ toString r.status ++ ")")
            ("HTTP_" ++ toString r.status) SCAN_DISPLAY_TIME)]
    | HttpOutcome.requestException =>
        Effect.cacheWrite barcode ::
        Effect.enqueueDisplay (DisplayRequest.error
          ("網絡連接失敗" ++ (if cacheOk then ", 已將打卡緩存" else ""))
          "NETWORK_ERROR" SCAN_DISPLAY_TIME) ::
        [Effect.cueError]
    | HttpOutcome.otherError msg =>
        Effect.enqueueDisplay (DisplayRequest.error
          ("處理錯誤: " ++ msg) "UNEXPECTED_ERROR" SCAN_DISPLAY_TIME) ::
        [Effect.cueError]

/-! ## Console variant: `process_barcode` effects -/

/-- The dict handed to `display_result` in the console variant: either the
parsed response body (HTTP 200) or a constructed error dict. -/
structure ResultView where
  success : Option Bool
  code : Option String
  message : Option String
  action : Option String
  name : Option String
deriving DecidableEq, Repr

/-- Observable effects of the console variant's `process_barcode`. -/
inductive CEffect where
  | httpPost (idNumber deviceId : String)
  | cueSuccess
  | cueError
  | showResult (view : ResultView)
  | sleepSecs (n : Nat)
  | showHeader
  | cacheWrite (idNumber : String)
deriving DecidableEq, Repr

/-- The parsed response body of an HTTP-200 exchange, as passed to
`display_result` by the console variant. -/
def bodyView (b : ScanBody) : ResultView :=
  { success := b.success, code := b.code, message := b.message
    action := b.action, name := b.name }

/-- The console variant's `process_barcode`, as the ordered list of effects
it performs. -/
def processBarcodeConsole (barcode : String) (outcome : HttpOutcome)
    (cacheOk : Bool) : List CEffect :=
  if barcode = "" then []
  else
    CEffect.httpPost barcode DEVICE_ID ::
    match outcome with
    | HttpOutcome.response r =>
        if r.status = 200 then
          [CEffect.cueSuccess, CEffect.showResult (bodyView r.body),
           CEffect.sleepSecs SCAN_DISPLAY_TIME_CONSOLE, CEffect.showHeader]
        else
          [CEffect.cueError,
           CEffect.showResult
             { success := some false
               code := some ("HTTP_" ++ toString r.status)
               message := some (if r.text ≠ "" then r.text else "伺服器返回錯誤")
               action := none, name := none },
           CEffect.sleepSecs SCAN_DISPLAY_TIME_CONSOLE, CEffect.showHeader]
    | HttpOutcome.requestException =>
        CEffect.cacheWrite barcode ::
        (if cacheOk then
          [CEffect.cueError,
           CEffect.showResult
             { success := some false, code := some "NETWORK_ERROR"
               message := some "網絡連接失敗，已將打卡緩存"
               action := none, name := none },
           CEffect.sleepSecs SCAN_DISPLAY_TIME_CONSOLE, CEffect.showHeader]
        else
          [CEffect.cueError,
           CEffect.showResult
             { success := some false, code := some "CACHE_ERROR"
               message := some "網絡連接失敗，且緩存失敗"
               action := none, name := none },
           CEffect.sleepSecs SCAN_DISPLAY_TIME_CONSOLE, CEffect.showHeader])
    | HttpOutcome.otherError msg =>
        [CEffect.cueError,
         CEffect.showResult
           { success := some false, code := some "UNEXPECTED_ERROR"
             message := some msg, action := none, name := none },
         CEffect.sleepSecs SCAN_DISPLAY_TIME_CONSOLE, CEffect.showHeader]

/-! ## Offline buffer: `send_cached_scans`

The cache directory is modelled as a listing of files; `readable` is true
when both `open`+`json.load` succeed on the file.  Delivery of each cached
payload is an oracle from the file name to the outcome of the post. -/

structure CachedData where
  idNumber : String
  timestamp : String
  deviceId : String
deriving DecidableEq, Repr

structure CacheFile where
  name : String
  readable : Bool
  data : CachedData
deriving DecidableEq, Repr

/-- Outcome of the `requests.post` for one cached record. -/
inductive SendOutcome where
  | resp (r : Response)
  | exn
deriving DecidableEq, Repr

/-- The listing filter of `send_cached_scans`:
`f.startswith('scan_') and f.endswith('.json')`, over the file name's
character sequence. -/
def matchesCachePattern (name : String) : Bool :=
  "scan_".data.isPrefixOf name.data && ".json".data.isSuffixOf name.data

/-- Whether one iteration of the `send_cached_scans` loop leaves the file
on disk: kept unless the post returned HTTP 200 (exceptions are caught and
keep the file). -/
def keepAfterAttempt (o : SendOutcome) : Bool :=
  match o with
  | SendOutcome.resp r => decide (r.status ≠ 200)
  | SendOutcome.exn => true

/-- The loop of `send_cached_scans` over the filtered listing: returns the
names posted to the server and the names deleted from disk, in order.  A
file whose read/parse fails is skipped (its exception is caught) and the
loop continues with the next file. -/
def processCached (oracle : String → SendOutcome) :
    List CacheFile → List String × List String
  | [] => ([], [])
  | f :: fs =>
      let rest := processCached oracle fs
      if f.readable then
        if keepAfterAttempt (oracle f.name) then
          (f.name :: rest.1, rest.2)
        else
          (f.name :: rest.1, f.name :: rest.2)
      else rest

/-- `send_cached_scans`: filter the directory listing by the cache-file
pattern, run the delivery loop, and return the resulting directory
contents together with the posted and deleted file names. -/
def sendCachedScans (oracle : String → SendOutcome) (dir : List CacheFile) :
    List CacheFile × List String × List String :=
  let cacheFiles := dir.filter (fun f => matchesCachePattern f.name)
  let pd := processCached oracle cacheFiles
  (dir.filter (fun f => decide (f.name ∉ pd.2)), pd)

/-! ## Input framer (the stdin loop of `main`, both variants)

The buffer is the Python string `current_input`, modelled as a list of
characters; `lastInput` is `last_input_time`.  Each loop tick either reads
one character at the current time or finds no input ready. -/

/-- Python `str.strip()`: drop whitespace from both ends. -/
def pyStrip (s : List Char) : List Char :=
  ((s.dropWhile Char.isWhitespace).reverse.dropWhile Char.isWhitespace).reverse

structure FramerState where
  buf : List Char
  lastInput : ℚ
deriving DecidableEq, Repr

/-- One loop tick of `main`: either a character `c` was read at time `t`,
or no input was ready at time `t`. -/
inductive FramerInput where
  | char (c : Char) (t : ℚ)
  | idle (t : ℚ)
deriving DecidableEq, Repr

def framerInit : FramerState := { buf := [], lastInput := 0 }

/-- One iteration of the stdin loop: returns the next state and the token
put on `scan_queue`, if any.  On a character: update `last_input_time`;
a newline submits `current_input.strip()` when the buffer is non-empty
and clears the buffer; any other character is appended.  With no input
ready: when the buffer is non-empty and more than `INPUT_TIMEOUT` has
elapsed since the last character, submit the stripped buffer and clear
it (`last_input_time` is not updated on this path). -/
def framerStep (st : FramerState) (inp : FramerInput) :
    FramerState × Option (List Char) :=
  match inp with
  | FramerInput.char c t =>
      if c = '\n' then
        if st.buf ≠ [] then
          ({ buf := [], lastInput := t }, some (pyStrip st.buf))
        else
          ({ st with lastInput := t }, none)
      else
        ({ buf := st.buf ++ [c], lastInput := t }, none)
  | FramerInput.idle t =>
      if st.buf ≠ [] ∧ t - st.lastInput > INPUT_TIMEOUT then
        ({ st with buf := [] }, some (pyStrip st.buf))
      else (st, none)

/-- Run the framer over a list of loop-tick inputs, collecting the emitted
tokens in order. -/
def runFramer (st : FramerState) : List FramerInput → FramerState × List (List Char)
  | [] => (st, [])
  | i :: is =>
      let r := framerStep st i
      let rest := runFramer r.1 is
      (rest.1, r.2.toList ++ rest.2)

/-! ## Display scheduler (the body of `display_thread`) -/

/-- What one tick of `display_thread` draws to the framebuffer. -/
inductive Screen where
  | clockScreen
  | successScreen (action name time date : String)
deriving DecidableEq, Repr

structure DisplayState where
  isShowingClock : Bool
  lastClockUpdate : ℚ
  currentDisplayEndTime : ℚ
deriving DecidableEq, Repr

/-- The initial local state of `display_thread`. -/
def displayInit : DisplayState :=
  { isShowingClock := true, lastClockUpdate := 0, currentDisplayEndTime := 0 }

/-- One iteration of the `display_thread` loop at wall time `now`, with
`req` the display request dequeued this tick (`none` when the queue is
empty).  A `success` request draws the success screen, leaves clock mode
and sets the end time to `now` plus the request's duration.  An `error`
request draws the clock screen (the error screen is a to-do in the
source) and returns to clock mode; the end time is untouched.  A `clock`
request matches neither branch and does nothing.  With an empty queue,
the result display ends once `now` passes the recorded end time, and in
clock mode the clock is redrawn when at least `CLOCK_UPDATE_INTERVAL`
has elapsed since the last redraw. -/
def displayStep (st : DisplayState) (now : ℚ) (req : Option DisplayRequest) :
    DisplayState × List Screen :=
  match req with
  | some (DisplayRequest.success a n d t dur) =>
      ({ st with isShowingClock := false,
                 currentDisplayEndTime := now + (dur : ℚ) },
       [Screen.successScreen a n t d])
  | some (DisplayRequest.error _ _ _) =>
      ({ st with isShowingClock := true }, [Screen.clockScreen])
  | some (DisplayRequest.clock _) => (st, [])
  | none =>
      let showing := if ¬ st.isShowingClock ∧ now > st.currentDisplayEndTime
        then true else st.isShowingClock
      if showing ∧ now - st.lastClockUpdate ≥ CLOCK_UPDATE_INTERVAL then
        ({ st with isShowingClock := showing, lastClockUpdate := now },
         [Screen.clockScreen])
      else
        ({ st with isShowingClock := showing }, [])

/-! ## Lemmas about the offline-buffer loop -/

theorem sendCachedScans_dir (oracle : String → SendOutcome) (dir : List CacheFile) :
    (sendCachedScans oracle dir).1 =
      dir.filter (fun f => decide (f.name ∉
        (processCached oracle (dir.filter fun g => matchesCachePattern g.name)).2)) :=
  rfl

theorem sendCachedScans_posted (oracle : String → SendOutcome) (dir : List CacheFile) :
    (sendCachedScans oracle dir).2.1 =
      (processCached oracle (dir.filter fun g => matchesCachePattern g.name)).1 :=
  rfl

theorem sendCachedScans_deleted (oracle : String → SendOutcome) (dir : List CacheFile) :
    (sendCachedScans oracle dir).2.2 =
      (processCached oracle (dir.filter fun g => matchesCachePattern g.name)).2 :=
  rfl

/-- Every name posted by the delivery loop is the name of a readable file
of the processed listing. -/
theorem processCached_posted_mem (oracle : String → SendOutcome) :
    ∀ (fs : List CacheFile) (x : String), x ∈ (processCached oracle fs).1 →
      ∃ g ∈ fs, g.name = x ∧ g.readable = true := by
  intro fs
  induction fs with
  | nil => intro x hx; simp [processCached] at hx
  | cons f fs ih =>
      intro x hx
      cases hr : f.readable with
      | false =>
          rw [processCached, hr] at hx
          simp only [Bool.false_eq_true, if_false] at hx
          obtain ⟨g, hg, hgx⟩ := ih x hx
          exact ⟨g, List.mem_cons_of_mem f hg, hgx⟩
      | true =>
          rw [processCached, hr] at hx
          simp only [if_true] at hx
          cases hk : keepAfterAttempt (oracle f.name) <;> rw [hk] at hx <;>
            simp only [Bool.false_eq_true, if_false, if_true] at hx <;>
            rcases List.mem_cons.mp hx with h | h
          · exact ⟨f, List.mem_cons_self f fs, h.symm, hr⟩
          · obtain ⟨g, hg, hgx⟩ := ih x h
            exact ⟨g, List.mem_cons_of_mem f hg, hgx⟩
          · exact ⟨f, List.mem_cons_self f fs, h.symm, hr⟩
          · obtain ⟨g, hg, hgx⟩ := ih x h
            exact ⟨g, List.mem_cons_of_mem f hg, hgx⟩

/-- Every name deleted by the delivery loop is the name of a readable file
of the processed listing whose delivery attempt returned HTTP 200. -/
theorem processCached_deleted_mem (oracle : String → SendOutcome) :
    ∀ (fs : List CacheFile) (x : String), x ∈ (processCached oracle fs).2 →
      ∃ g ∈ fs, g.name = x ∧ g.readable = true ∧
        keepAfterAttempt (oracle x) = false := by
  intro fs
  induction fs with
  | nil => intro x hx; simp [processCached] at hx
  | cons f fs ih =>
      intro x hx
      cases hr : f.readable with
      | false =>
          rw [processCached, hr] at hx
          simp only [Bool.false_eq_true, if_false] at hx
          obtain ⟨g, hg, hgx⟩ := ih x hx
          exact ⟨g, List.mem_cons_of_mem f hg, hgx⟩
      | true =>
          rw [processCached, hr] at hx
          simp only [if_true] at hx
          cases hk : keepAfterAttempt (oracle f.name) with
          | false =>
              rw [hk] at hx
              simp only [Bool.false_eq_true, if_false] at hx
              rcases List.mem_cons.mp hx with h | h
              · subst h
                exact ⟨f, List.mem_cons_self f fs, rfl, hr, hk⟩
              · obtain ⟨g, hg, hgx⟩ := ih x h
                exact ⟨g, List.mem_cons_of_mem f hg, hgx⟩
          | true =>
              rw [hk] at hx
              simp only [if_true] at hx
              obtain ⟨g, hg, hgx⟩ := ih x hx
              exact ⟨g, List.mem_cons_of_mem f hg, hgx⟩

/-- Every readable file of the processed listing is posted, regardless of
the outcomes of the other files (the loop never halts early). -/
theorem processCached_readable_posted (oracle : String → SendOutcome) :
    ∀ (fs : List CacheFile) (g : CacheFile), g ∈ fs → g.readable = true →
      g.name ∈ (processCached oracle fs).1 := by
  intro fs
  induction fs with
  | nil => intro g hg; simp at hg
  | cons f fs ih =>
      intro g hg hr
      rcases List.mem_cons.mp hg with h | h
      · subst h
        cases hk : keepAfterAttempt (oracle g.name) <;>
          simp [processCached, hr, hk]
      · have hmem := ih g h hr
        cases hfr : f.readable <;> cases hk : keepAfterAttempt (oracle f.name) <;>
          simp [processCached, hfr, hk, hmem]

/-- A readable file whose delivery attempt returns HTTP 200 is deleted. -/
theorem processCached_deleted_of_http200 (oracle : String → SendOutcome) :
    ∀ (fs : List CacheFile) (g : CacheFile), g ∈ fs → g.readable = true →
      keepAfterAttempt (oracle g.name) = false →
      g.name ∈ (processCached oracle fs).2 := by
  intro fs
  induction fs with
  | nil => intro g hg; simp at hg
  | cons f fs ih =>
      intro g hg hr hk
      rcases List.mem_cons.mp hg with h | h
      · subst h
        simp [processCached, hr, hk]
      · have hmem := ih g h hr hk
        cases hfr : f.readable <;> cases hfk : keepAfterAttempt (oracle f.name) <;>
          simp [processCached, hfr, hfk, hmem]

/-! ## Lemmas about the input framer -/

theorem runFramer_append (st : FramerState) (l₁ l₂ : List FramerInput) :
    runFramer st (l₁ ++ l₂) =
      ((runFramer (runFramer st l₁).1 l₂).1,
       (runFramer st l₁).2 ++ (runFramer (runFramer st l₁).1 l₂).2) := by
  induction l₁ generalizing st with
  | nil => simp [runFramer]
  | cons i is ih => simp [runFramer, ih]

/-- Feeding only non-newline characters emits no token and appends the
characters, in order, to the buffer. -/
theorem runFramer_chars (cts : List (Char × ℚ)) (st : FramerState)
    (hnl : ∀ p ∈ cts, (p : Char × ℚ).1 ≠ '\n') :
    (runFramer st (cts.map fun p => FramerInput.char p.1 p.2)).2 = [] ∧
    (runFramer st (cts.map fun p => FramerInput.char p.1 p.2)).1.buf =
      st.buf ++ cts.map Prod.fst := by
  induction cts generalizing st with
  | nil => simp [runFramer]
  | cons p ps ih =>
      have hp : p.1 ≠ '\n' := hnl p (List.mem_cons_self p ps)
      have ihh := ih { buf := st.buf ++ [p.1], lastInput := p.2 }
        (fun q hq => hnl q (List.mem_cons_of_mem p hq))
      simp [runFramer, framerStep, hp, ihh.1, ihh.2]

/-! ## Theorems -/

/-- Claim C9: when `process_barcode` is called with an empty barcode string
it returns immediately with no side effect — no HTTP request, no display
event, no cue, no cache write — in both variants. -/
theorem C9_empty_barcode_no_effects (outcome : HttpOutcome) (cacheOk : Bool)
    (d t : String) :
    processBarcode "" outcome cacheOk d t = [] ∧
    processBarcodeConsole "" outcome cacheOk = [] :=
  ⟨rfl, rfl⟩

/-- Claim C8: on any HTTP 200 response, the display variant's
`process_barcode` signals the success cue immediately after the post and
before any effect that depends on the body's success flag, and never
signals the error cue — so a 200 response with a false success flag still
triggers the success cue. -/
theorem C8_success_cue_on_http200 (b : String) (r : Response) (cacheOk : Bool)
    (d t : String) (hb : b ≠ "") (h200 : r.status = 200) :
    (processBarcode b (HttpOutcome.response r) cacheOk d t).take 2 =
      [Effect.httpPost b DEVICE_ID, Effect.cueSuccess] ∧
    Effect.cueError ∉ processBarcode b (HttpOutcome.response r) cacheOk d t := by
  constructor
  · simp [processBarcode, hb, h200]
  · simp only [processBarcode, if_neg hb, h200, if_pos]
    cases h : truthy r.body.success <;> simp [h]

/-- Witness for C8 at the concrete application-failure input: barcode
`"A123"`, HTTP 200 with body success flag `false`. -/
theorem C8_witness :
    (processBarcode "A123"
        (HttpOutcome.response
          { status := 200
            body := { success := some false, action := none, name := none,
                      code := none, message := none }
            text := "" }) true "2025/01/01" "08:00").take 2 =
      [Effect.httpPost "A123" DEVICE_ID, Effect.cueSuccess] ∧
    Effect.cueError ∉ processBarcode "A123"
        (HttpOutcome.response
          { status := 200
            body := { success := some false, action := none, name := none,
                      code := none, message := none }
            text := "" }) true "2025/01/01" "08:00" :=
  C8_success_cue_on_http200 "A123" _ true "2025/01/01" "08:00" (by decide) rfl

/-- Claim C2: in the display variant, `cache_scan` is invoked (a cache
file write is attempted) exactly when the post raised a request exception
(transport failure); and any non-200 response — in particular HTTP 500 —
yields only the error cue and a Failure display event with code
`HTTP_<status>`, with no cache write. -/
theorem C2_cache_iff_transport_failure (b : String) (outcome : HttpOutcome)
    (cacheOk : Bool) (d t : String) (hb : b ≠ "") :
    ((Effect.cacheWrite b ∈ processBarcode b outcome cacheOk d t) ↔
      outcome = HttpOutcome.requestException) ∧
    (∀ r : Response, r.status ≠ 200 →
      processBarcode b (HttpOutcome.response r) cacheOk d t =
        [Effect.httpPost b DEVICE_ID, Effect.cueError,
         Effect.enqueueDisplay (DisplayRequest.error
           ("伺服器錯誤 (" ++ toString r.status ++ ")")
           ("HTTP_" ++ toString r.status) SCAN_DISPLAY_TIME)]) := by
  constructor
  · cases outcome with
    | response r =>
        simp only [processBarcode, if_neg hb]
        constructor
        · intro hmem
          exfalso
          rcases List.mem_cons.mp hmem with h | h
          · exact Effect.noConfusion h
          · by_cases h200 : r.status = 200
            · rw [if_pos h200] at h
              rcases List.mem_cons.mp h with h2 | h2
              · exact Effect.noConfusion h2
              · cases htr : truthy r.body.success <;> simp [htr] at h2
            · rw [if_neg h200] at h
              simp at h
        · intro h
          exact HttpOutcome.noConfusion h
    | requestException => simp [processBarcode, hb]
    | otherError msg => simp [processBarcode, hb]
  · intro r hr
    simp [processBarcode, hb, hr]

/-- Witness for C2 at the spec's scenario input: barcode `"A123"` with an
HTTP 500 response produces the `HTTP_500` failure event and no cache
write, and the cache write happens under a request exception. -/
theorem C2_witness :
    ((Effect.cacheWrite "A123" ∈
        processBarcode "A123"
          (HttpOutcome.response
            { status := 500
              body := { success := none, action := none, name := none,
                        code := none, message := none }
              text := "" }) true "2025/01/01" "08:00") ↔
      HttpOutcome.response
          { status := 500
            body := { success := none, action := none, name := none,
                      code := none, message := none }
            text := "" } = HttpOutcome.requestException) ∧
    (∀ r : Response, r.status ≠ 200 →
      processBarcode "A123" (HttpOutcome.response r) true "2025/01/01" "08:00" =
        [Effect.httpPost "A123" DEVICE_ID, Effect.cueError,
         Effect.enqueueDisplay (DisplayRequest.error
           ("伺服器錯誤 (" ++ toString r.status ++ ")")
           ("HTTP_" ++ toString r.status) SCAN_DISPLAY_TIME)]) :=
  C2_cache_iff_transport_failure "A123"
    (HttpOutcome.response
      { status := 500
        body := { success := none, action := none, name := none,
                  code := none, message := none }
        text := "" }) true "2025/01/01" "08:00" (by decide)

/-- Claim C3, counterexample: in the console variant, when the post raises
a transport error and caching fails, the displayed failure code is
`CACHE_ERROR`, not `NETWORK_ERROR` as the claim states. -/
theorem C3_counterexample :
    processBarcodeConsole "A123" HttpOutcome.requestException false =
      [CEffect.httpPost "A123" DEVICE_ID, CEffect.cacheWrite "A123",
       CEffect.cueError,
       CEffect.showResult
         { success := some false, code := some "CACHE_ERROR"
           message := some "網絡連接失敗，且緩存失敗", action := none, name := none },
       CEffect.sleepSecs SCAN_DISPLAY_TIME_CONSOLE, CEffect.showHeader] ∧
    "CACHE_ERROR" ≠ "NETWORK_ERROR" :=
  ⟨rfl, by decide⟩

/-- Claim C3 as amended: on a transport error both variants invoke the
cache store and report a failure whose message distinguishes whether
caching succeeded; the display variant always uses code `NETWORK_ERROR`,
while the console variant uses `NETWORK_ERROR` when caching succeeded and
`CACHE_ERROR` when it failed. -/
theorem C3_transport_error_reporting (b : String) (cacheOk : Bool)
    (d t : String) (hb : b ≠ "") :
    processBarcode b HttpOutcome.requestException cacheOk d t =
      [Effect.httpPost b DEVICE_ID, Effect.cacheWrite b,
       Effect.enqueueDisplay (DisplayRequest.error
         ("網絡連接失敗" ++ (if cacheOk then ", 已將打卡緩存" else ""))
         "NETWORK_ERROR" SCAN_DISPLAY_TIME),
       Effect.cueError] ∧
    processBarcodeConsole b HttpOutcome.requestException cacheOk =
      [CEffect.httpPost b DEVICE_ID, CEffect.cacheWrite b, CEffect.cueError,
       CEffect.showResult
         { success := some false
           code := some (if cacheOk then "NETWORK_ERROR" else "CACHE_ERROR")
           message := some (if cacheOk then "網絡連接失敗，已將打卡緩存"
                            else "網絡連接失敗，且緩存失敗")
           action := none, name := none },
       CEffect.sleepSecs SCAN_DISPLAY_TIME_CONSOLE, CEffect.showHeader] := by
  cases cacheOk <;> exact ⟨by simp [processBarcode, hb], by simp [processBarcodeConsole, hb]⟩

/-- Witness for C3 at the concrete input: barcode `"A123"` with a
transport error and a successful cache write. -/
theorem C3_witness :
    processBarcode "A123" HttpOutcome.requestException true "2025/01/01" "08:00" =
      [Effect.httpPost "A123" DEVICE_ID, Effect.cacheWrite "A123",
       Effect.enqueueDisplay (DisplayRequest.error
         ("網絡連接失敗" ++ (if true then ", 已將打卡緩存" else ""))
         "NETWORK_ERROR" SCAN_DISPLAY_TIME),
       Effect.cueError] ∧
    processBarcodeConsole "A123" HttpOutcome.requestException true =
      [CEffect.httpPost "A123" DEVICE_ID, CEffect.cacheWrite "A123", CEffect.cueError,
       CEffect.showResult
         { success := some false
           code := some (if true then "NETWORK_ERROR" else "CACHE_ERROR")
           message := some (if true then "網絡連接失敗，已將打卡緩存"
                            else "網絡連接失敗，且緩存失敗")
           action := none, name := none },
       CEffect.sleepSecs SCAN_DISPLAY_TIME_CONSOLE, CEffect.showHeader] :=
  C3_transport_error_reporting "A123" true "2025/01/01" "08:00" (by decide)

/-- Claim C4, counterexample: on HTTP 200 with a false success flag and no
body-provided message, the default failure message is the string
`"未知錯誤"`, not the claimed `"unknown error"`. -/
theorem C4_counterexample :
    processBarcode "A123"
        (HttpOutcome.response
          { status := 200
            body := { success := some false, action := none, name := none,
                      code := none, message := none }
            text := "" }) true "2025/01/01" "08:00" =
      [Effect.httpPost "A123" DEVICE_ID, Effect.cueSuccess,
       Effect.enqueueDisplay (DisplayRequest.error "未知錯誤" "UNKNOWN_ERROR"
         SCAN_DISPLAY_TIME)] ∧
    "未知錯誤" ≠ "unknown error" :=
  ⟨rfl, by decide⟩

/-- Claim C4 as amended: on HTTP 200, a truthy success flag yields a
Success display event carrying the body's action and name (defaults
`"clock-in"` and `""`), and a missing or false flag yields a Failure event
with the body's code and message, defaulting to `"UNKNOWN_ERROR"` and
`"未知錯誤"` (the script's Chinese rendering of "unknown error"). -/
theorem C4_http200_classification (b : String) (r : Response) (cacheOk : Bool)
    (d t : String) (hb : b ≠ "") (h200 : r.status = 200) :
    (truthy r.body.success = true →
      processBarcode b (HttpOutcome.response r) cacheOk d t =
        [Effect.httpPost b DEVICE_ID, Effect.cueSuccess,
         Effect.enqueueDisplay (DisplayRequest.success
           (r.body.action.getD "clock-in") (r.body.name.getD "")
           d t SCAN_DISPLAY_TIME)]) ∧
    (truthy r.body.success = false →
      processBarcode b (HttpOutcome.response r) cacheOk d t =
        [Effect.httpPost b DEVICE_ID, Effect.cueSuccess,
         Effect.enqueueDisplay (DisplayRequest.error
           (r.body.message.getD "未知錯誤") (r.body.code.getD "UNKNOWN_ERROR")
           SCAN_DISPLAY_TIME)]) := by
  constructor
  · intro hs; simp [processBarcode, hb, h200, hs]
  · intro hs; simp [processBarcode, hb, h200, hs]

/-- Witness for C4 at the spec's scenario input: `"A123"` with body
`{"success": true, "action": "clock-in", "name": "Alice"}` yields the
Success event carrying that action and name. -/
theorem C4_witness :
    (truthy (some true) = true →
      processBarcode "A123"
          (HttpOutcome.response
            { status := 200
              body := { success := some true, action := some "clock-in",
                        name := some "Alice", code := none, message := none }
              text := "" }) true "2025/01/01" "08:00" =
        [Effect.httpPost "A123" DEVICE_ID, Effect.cueSuccess,
         Effect.enqueueDisplay (DisplayRequest.success
           ((some "clock-in").getD "clock-in") ((some "Alice").getD "")
           "2025/01/01" "08:00" SCAN_DISPLAY_TIME)]) ∧
    (truthy (some true) = false →
      processBarcode "A123"
          (HttpOutcome.response
            { status := 200
              body := { success := some true, action := some "clock-in",
                        name := some "Alice", code := none, message := none }
              text := "" }) true "2025/01/01" "08:00" =
        [Effect.httpPost "A123" DEVICE_ID, Effect.cueSuccess,
         Effect.enqueueDisplay (DisplayRequest.error
           (Option.getD none "未知錯誤") (Option.getD none "UNKNOWN_ERROR")
           SCAN_DISPLAY_TIME)]) :=
  C4_http200_classification "A123"
    { status := 200
      body := { success := some true, action := some "clock-in",
                name := some "Alice", code := none, message := none }
      text := "" } true "2025/01/01" "08:00" (by decide) rfl

/-- Claim C6: with a non-empty buffer and no character for longer than
`INPUT_TIMEOUT`, one framer tick emits exactly one token equal to the
stripped buffer and clears the buffer. -/
theorem C6_idle_timeout_flush (st : FramerState) (t : ℚ)
    (hbuf : st.buf ≠ []) (htime : t - st.lastInput > INPUT_TIMEOUT) :
    framerStep st (FramerInput.idle t) =
      ({ st with buf := [] }, some (pyStrip st.buf)) := by
  simp [framerStep, hbuf, htime]

/-- Witness for C6 at a concrete input: buffer `['A']`, last input at time
0, idle tick at time 1. -/
theorem C6_witness :
    framerStep { buf := ['A'], lastInput := 0 } (FramerInput.idle 1) =
      ({ buf := [], lastInput := 0 }, some ['A']) := by
  have h := C6_idle_timeout_flush { buf := ['A'], lastInput := 0 } 1
    (by decide) (by norm_num [INPUT_TIMEOUT])
  simpa [pyStrip] using h

/-- Claim C7, counterexample: an Error display event makes the display
thread draw the clock screen and return to clock mode, leaving the expiry
time untouched — not render an error screen with expiry now + duration as
the claim states. -/
theorem C7_counterexample :
    displayStep
        { isShowingClock := true, lastClockUpdate := 0, currentDisplayEndTime := 0 }
        10 (some (DisplayRequest.error "m" "c" 6)) =
      ({ isShowingClock := true, lastClockUpdate := 0, currentDisplayEndTime := 0 },
       [Screen.clockScreen]) ∧
    (0 : ℚ) ≠ 10 + ((6 : Nat) : ℚ) :=
  ⟨rfl, by norm_num⟩

/-- Claim C7 as amended: a Success event renders the success screen
immediately, leaves clock mode and records expiry now + duration; an
Error event renders the clock screen and returns to clock mode with the
expiry time unchanged. -/
theorem C7_display_event_handling (st : DisplayState) (now : ℚ)
    (a n d t : String) (dur : Nat) (msg code : String) :
    displayStep st now (some (DisplayRequest.success a n d t dur)) =
      ({ st with isShowingClock := false,
                 currentDisplayEndTime := now + (dur : ℚ) },
       [Screen.successScreen a n t d]) ∧
    displayStep st now (some (DisplayRequest.error msg code dur)) =
      ({ st with isShowingClock := true }, [Screen.clockScreen]) :=
  ⟨rfl, rfl⟩

/-- Claim C1, counterexample: `send_cached_scans` checks only the HTTP
status.  With one pending record and a delivery that returns HTTP 200
whose body has `success = false` (an application-level failure), the
record is nevertheless deleted: the resulting directory is empty. -/
theorem C1_counterexample :
    (sendCachedScans
        (fun _ => SendOutcome.resp
          { status := 200
            body := { success := some false, action := none, name := none,
                      code := none, message := none }
            text := "" })
        [{ name := "scan_a.json", readable := true,
           data := { idNumber := "A1", timestamp := "T", deviceId := "D" } }]).1 = [] ∧
    truthy (some false) = false :=
  ⟨rfl, rfl⟩

/-- Claim C1 as amended: a pending cached record that is read and parsed
successfully is deleted exactly when its delivery attempt returns HTTP
status 200 — irrespective of the response body — and is retained when the
post raises or returns any non-200 status. -/
theorem C1_deletion_iff_http200 (oracle : String → SendOutcome)
    (dir : List CacheFile) (f : CacheFile) (hf : f ∈ dir)
    (hm : matchesCachePattern f.name = true) (hr : f.readable = true) :
    f ∈ (sendCachedScans oracle dir).1 ↔
      keepAfterAttempt (oracle f.name) = true := by
  rw [sendCachedScans_dir]
  simp only [List.mem_filter, decide_eq_true_eq]
  constructor
  · rintro ⟨-, hnot⟩
    by_contra hk
    rw [Bool.not_eq_true] at hk
    exact hnot (processCached_deleted_of_http200 oracle _ f
      (List.mem_filter.mpr ⟨hf, hm⟩) hr hk)
  · intro hk
    refine ⟨hf, fun hmem => ?_⟩
    obtain ⟨g, hg, hgx, hgr, hknot⟩ := processCached_deleted_mem oracle _ _ hmem
    rw [hk] at hknot
    exact Bool.noConfusion hknot

/-- Witness for C1 at a concrete input: a single readable pending record
whose delivery returns HTTP 500 is retained on disk. -/
theorem C1_witness :
    ({ name := "scan_a.json", readable := true,
       data := { idNumber := "A1", timestamp := "T", deviceId := "D" } } : CacheFile) ∈
      (sendCachedScans
        (fun _ => SendOutcome.resp
          { status := 500
            body := { success := none, action := none, name := none,
                      code := none, message := none }
            text := "" })
        [{ name := "scan_a.json", readable := true,
           data := { idNumber := "A1", timestamp := "T", deviceId := "D" } }]).1 :=
  (C1_deletion_iff_http200 _ _ _ (by decide) (by decide) rfl).mpr (by decide)

/-- Claim C10: `send_cached_scans` touches only files whose names start
with `scan_` and end with `.json` — any other file is never posted and
stays in the directory; a matching file that cannot be read or parsed is
never posted and stays in the directory; and every matching readable file
is posted regardless of the outcomes of the other files (individual
failures do not stop the enumeration). -/
theorem C10_cache_enumeration (oracle : String → SendOutcome)
    (dir : List CacheFile) (f : CacheFile) (hf : f ∈ dir)
    (hnd : (dir.map CacheFile.name).Nodup) :
    (matchesCachePattern f.name = false →
      f ∈ (sendCachedScans oracle dir).1 ∧
      f.name ∉ (sendCachedScans oracle dir).2.1) ∧
    (f.readable = false →
      f ∈ (sendCachedScans oracle dir).1 ∧
      f.name ∉ (sendCachedScans oracle dir).2.1) ∧
    (matchesCachePattern f.name = true → f.readable = true →
      f.name ∈ (sendCachedScans oracle dir).2.1) := by
  have hinj := List.inj_on_of_nodup_map hnd
  refine ⟨fun hm => ⟨?_, ?_⟩, fun hr => ⟨?_, ?_⟩, fun hm hr => ?_⟩
  · rw [sendCachedScans_dir]
    refine List.mem_filter.mpr ⟨hf, decide_eq_true (fun hmem => ?_)⟩
    obtain ⟨g, hg, hgx, -, -⟩ := processCached_deleted_mem oracle _ _ hmem
    have hgm := (List.mem_filter.mp hg).2
    rw [hgx, hm] at hgm
    exact Bool.noConfusion hgm
  · rw [sendCachedScans_posted]
    intro hmem
    obtain ⟨g, hg, hgx, -⟩ := processCached_posted_mem oracle _ _ hmem
    have hgm := (List.mem_filter.mp hg).2
    rw [hgx, hm] at hgm
    exact Bool.noConfusion hgm
  · rw [sendCachedScans_dir]
    refine List.mem_filter.mpr ⟨hf, decide_eq_true (fun hmem => ?_)⟩
    obtain ⟨g, hg, hgx, hgr, -⟩ := processCached_deleted_mem oracle _ _ hmem
    have hgf : g = f := hinj (List.mem_of_mem_filter hg) hf hgx
    rw [hgf, hr] at hgr
    exact Bool.noConfusion hgr
  · rw [sendCachedScans_posted]
    intro hmem
    obtain ⟨g, hg, hgx, hgr⟩ := processCached_posted_mem oracle _ _ hmem
    have hgf : g = f := hinj (List.mem_of_mem_filter hg) hf hgx
    rw [hgf, hr] at hgr
    exact Bool.noConfusion hgr
  · rw [sendCachedScans_posted]
    exact processCached_readable_posted oracle _ f
      (List.mem_filter.mpr ⟨hf, hm⟩) hr

/-- Witness for C10 at a concrete input: a directory holding a
non-matching file, an unreadable matching file and a readable matching
file, with every delivery raising. -/
theorem C10_witness :
    (matchesCachePattern "scan_c.json" = false →
      ({ name := "scan_c.json", readable := true,
         data := { idNumber := "C", timestamp := "T", deviceId := "D" } } : CacheFile) ∈
        (sendCachedScans (fun _ => SendOutcome.exn)
          [{ name := "notes.txt", readable := true,
             data := { idNumber := "N", timestamp := "T", deviceId := "D" } },
           { name := "scan_b.json", readable := false,
             data := { idNumber := "B", timestamp := "T", deviceId := "D" } },
           { name := "scan_c.json", readable := true,
             data := { idNumber := "C", timestamp := "T", deviceId := "D" } }]).1 ∧
      "scan_c.json" ∉
        (sendCachedScans (fun _ => SendOutcome.exn)
          [{ name := "notes.txt", readable := true,
             data := { idNumber := "N", timestamp := "T", deviceId := "D" } },
           { name := "scan_b.json", readable := false,
             data := { idNumber := "B", timestamp := "T", deviceId := "D" } },
           { name := "scan_c.json", readable := true,
             data := { idNumber := "C", timestamp := "T", deviceId := "D" } }]).2.1) ∧
    (({ name := "scan_c.json", readable := true,
        data := { idNumber := "C", timestamp := "T", deviceId := "D" } } : CacheFile).readable = false →
      ({ name := "scan_c.json", readable := true,
         data := { idNumber := "C", timestamp := "T", deviceId := "D" } } : CacheFile) ∈
        (sendCachedScans (fun _ => SendOutcome.exn)
          [{ name := "notes.txt", readable := true,
             data := { idNumber := "N", timestamp := "T", deviceId := "D" } },
           { name := "scan_b.json", readable := false,
             data := { idNumber := "B", timestamp := "T", deviceId := "D" } },
           { name := "scan_c.json", readable := true,
             data := { idNumber := "C", timestamp := "T", deviceId := "D" } }]).1 ∧
      "scan_c.json" ∉
        (sendCachedScans (fun _ => SendOutcome.exn)
          [{ name := "notes.txt", readable := true,
             data := { idNumber := "N", timestamp := "T", deviceId := "D" } },
           { name := "scan_b.json", readable := false,
             data := { idNumber := "B", timestamp := "T", deviceId := "D" } },
           { name := "scan_c.json", readable := true,
             data := { idNumber := "C", timestamp := "T", deviceId := "D" } }]).2.1) ∧
    (matchesCachePattern "scan_c.json" = true →
      ({ name := "scan_c.json", readable := true,
         data := { idNumber := "C", timestamp := "T", deviceId := "D" } } : CacheFile).readable = true →
      "scan_c.json" ∈
        (sendCachedScans (fun _ => SendOutcome.exn)
          [{ name := "notes.txt", readable := true,
             data := { idNumber := "N", timestamp := "T", deviceId := "D" } },
           { name := "scan_b.json", readable := false,
             data := { idNumber := "B", timestamp := "T", deviceId := "D" } },
           { name := "scan_c.json", readable := true,
             data := { idNumber := "C", timestamp := "T", deviceId := "D" } }]).2.1) :=
  C10_cache_enumeration (fun _ => SendOutcome.exn)
    [{ name := "notes.txt", readable := true,
       data := { idNumber := "N", timestamp := "T", deviceId := "D" } },
     { name := "scan_b.json", readable := false,
       data := { idNumber := "B", timestamp := "T", deviceId := "D" } },
     { name := "scan_c.json", readable := true,
       data := { idNumber := "C", timestamp := "T", deviceId := "D" } }]
    { name := "scan_c.json", readable := true,
      data := { idNumber := "C", timestamp := "T", deviceId := "D" } }
    (by decide) (by decide)

/-- Claim C5, counterexample: a buffer holding only whitespace is truthy
in the source (`if current_input:`), so a newline after a single space
makes the framer enqueue the empty token — one token is produced, not
none as the claim states. -/
theorem C5_counterexample :
    (runFramer framerInit
        [FramerInput.char ' ' 0, FramerInput.char '\n' 0]).2 = [[]] ∧
    ([[]] : List (List Char)) ≠ [] :=
  ⟨rfl, by decide⟩

/-- Claim C5 as amended: for every character sequence without interior
terminators followed by a newline, the framer emits exactly one token —
the stripped sequence, never split or duplicated — when the sequence is
non-empty, and none when it is empty; the emitted token for a
whitespace-only sequence is the empty token (discarded downstream by
`process_barcode`, not by the framer); the buffer is cleared after
emission. -/
theorem C5_terminator_framing (cts : List (Char × ℚ)) (tn : ℚ)
    (hnl : ∀ p ∈ cts, (p : Char × ℚ).1 ≠ '\n') :
    (runFramer framerInit
        ((cts.map fun p => FramerInput.char p.1 p.2) ++
          [FramerInput.char '\n' tn])).2 =
      (if cts = [] then [] else [pyStrip (cts.map Prod.fst)]) ∧
    (runFramer framerInit
        ((cts.map fun p => FramerInput.char p.1 p.2) ++
          [FramerInput.char '\n' tn])).1.buf = [] := by
  obtain ⟨h1, h2⟩ := runFramer_chars cts framerInit hnl
  have h2' : (runFramer framerInit
      (cts.map fun p => FramerInput.char p.1 p.2)).1.buf = cts.map Prod.fst := by
    rw [h2]; rfl
  rw [runFramer_append, h1, List.nil_append]
  by_cases h : cts = []
  · subst h
    simp only [List.map_nil] at h2'
    exact ⟨by simp [runFramer, framerStep, framerInit],
           by simp [runFramer, framerStep, framerInit]⟩
  · have hb : (runFramer framerInit
        (cts.map fun p => FramerInput.char p.1 p.2)).1.buf ≠ [] := by
      rw [h2']
      cases cts with
      | nil => exact absurd rfl h
      | cons a l => simp
    refine ⟨?_, ?_⟩
    · rw [if_neg h]
      simp [runFramer, framerStep, hb, h2', h]
    · simp [runFramer, framerStep, hb, h2', h]

/-- Witness for C5 at a concrete input: the characters of `"A1"` followed
by a newline produce exactly the token `"A1"`. -/
theorem C5_witness :
    (runFramer framerInit
        [FramerInput.char 'A' 0, FramerInput.char '1' 0,
         FramerInput.char '\n' 1]).2 = [['A', '1']] := by
  have h := (C5_terminator_framing [(⟨'A', 0⟩ : Char × ℚ), ⟨'1', 0⟩] 1 (by decide)).1
  exact h.trans (by decide)

end BarcodeScanner
